import Mathlib

/-!
Verification of the TicketToken marketplace-engine settlement core.

The definitions below are a shallow embedding of the Rust sources under
`src/smart-contracts/programs/marketplace-engine/`:
* `src/errors/mod.rs` — the `MarketplaceError` enum,
* `src/state/listing.rs`, `src/state/royalty.rs`, `src/state/mod.rs` — account types,
* `src/instructions/create_listing.rs` and `src/instructions/buy_ticket.rs` — the
  richer listing path (with escrow token account and expiry),
* `src/lib.rs` — the in-program `create_listing` / `buy_ticket` / `create_auction` /
  `place_bid` stubs and the out-of-module `configure_royalty`,
* `temp_auction_fix.rs` — the full `place_bid` / `end_auction` implementations.

Machine integers are modelled as `Nat` together with the checked operations the
source uses (`checked_mul`, `checked_div`, `checked_sub` on `u64`, each returning
`Option`).  The one unchecked machine operation in the sources — the `u16`
addition in `configure_royalty` — is modelled with wrapping semantics
(`% 2 ^ 16`), the behaviour of the release profile the on-chain build uses
(no `overflow-checks` override is present in the sources).

Lamport movements and SPL-token movements performed by an instruction are
reified as ordered lists of `Transfer` / `TokenMove` records, so that ordering
claims (refund-before-deposit) and frame claims (which wallets are touched)
can be stated.  The host ledger executes each instruction atomically: a failed
instruction commits nothing, which the `*Step` wrappers below make explicit.
-/

/-- Account addresses (Solana `Pubkey`) are modelled as natural numbers. -/
abbrev Pubkey := Nat

/-- Upper bound of the `u64` range. -/
def U64_MOD : Nat := 2 ^ 64

/-- Upper bound of the `u16` range. -/
def U16_MOD : Nat := 2 ^ 16

/-- Rust `u64::checked_mul`: `none` when the product leaves the `u64` range. -/
def checked_mul (a b : Nat) : Option Nat :=
  if a * b < U64_MOD then some (a * b) else none

/-- Rust `u64::checked_div`: `none` exactly when the divisor is zero. -/
def checked_div (a b : Nat) : Option Nat :=
  if b = 0 then none else some (a / b)

/-- Rust `u64::checked_sub`: `none` when the subtraction would underflow. -/
def checked_sub (a b : Nat) : Option Nat :=
  if b ≤ a then some (a - b) else none

/-- The error enum of `src/errors/mod.rs`.  `ListingExpired` is referenced by
`src/instructions/create_listing.rs` and `src/instructions/buy_ticket.rs`
although `src/errors/mod.rs` does not declare it; it is included so those
handlers can be embedded as written.  Note the enum has no `InvalidSplit` and
no `BidTooLow` variant. -/
inductive MarketplaceError where
  | PriceExceedsCap
  | ListingNotActive
  | InsufficientFunds
  | ArithmeticOverflow
  | ListingExpired
  deriving DecidableEq, Repr

/-- `ListingStatus` from `src/state/listing.rs` (the richer variant set). -/
inductive ListingStatus where
  | Active
  | Sold
  | Cancelled
  | Expired
  deriving DecidableEq, Repr

/-- `Listing` from `src/state/listing.rs` (the richer field set, which the
spec adopts as canonical). -/
structure Listing where
  ticket_mint : Pubkey
  seller : Pubkey
  price : Nat
  expires_at : Option Int
  allow_offers : Bool
  created_at : Int
  status : ListingStatus
  original_price : Nat
  price_cap : Nat
  bump : Nat
  deriving DecidableEq, Repr

/-- `RoyaltyConfig` from `src/state/mod.rs` / `src/state/royalty.rs`
(the fields `configure_royalty` writes). -/
structure RoyaltyConfig where
  event_mint : Pubkey
  artist_wallet : Pubkey
  venue_wallet : Pubkey
  platform_wallet : Pubkey
  artist_percentage : Nat
  venue_percentage : Nat
  platform_percentage : Nat
  price_cap_multiplier : Nat
  bump : Nat
  deriving DecidableEq, Repr

/-- `AuctionType` from `src/state/mod.rs`. -/
inductive AuctionType where
  | English
  | Dutch
  deriving DecidableEq, Repr

/-- `AuctionStatus` from `src/state/mod.rs`. -/
inductive AuctionStatus where
  | Active
  | Ended
  | Cancelled
  deriving DecidableEq, Repr

/-- `Auction` from `src/state/mod.rs`. -/
structure Auction where
  ticket_mint : Pubkey
  seller : Pubkey
  starting_bid : Nat
  current_bid : Nat
  highest_bidder : Option Pubkey
  end_time : Int
  auction_type : AuctionType
  status : AuctionStatus
  bump : Nat
  deriving DecidableEq, Repr

/-- One lamport movement `source → dest` of `amount`, in execution order. -/
structure Transfer where
  source : Pubkey
  dest : Pubkey
  amount : Nat
  deriving DecidableEq, Repr

/-- One SPL-token movement of `amount` units of a mint `source → dest`. -/
structure TokenMove where
  source : Pubkey
  dest : Pubkey
  amount : Nat
  deriving DecidableEq, Repr

/-- The ephemeral settlement record: the four computed shares. -/
structure Settlement where
  artist_share : Nat
  venue_share : Nat
  platform_share : Nat
  seller_share : Nat
  deriving DecidableEq, Repr

/-- One royalty share:
`total.checked_mul(bp).ok_or(Overflow)?.checked_div(10000).ok_or(Overflow)?`
as written identically in `buy_ticket.rs` lines 89-105, `lib.rs` lines 45-61
and `temp_auction_fix.rs` lines 72-88. -/
def computeRoyalty (total bp : Nat) : Except MarketplaceError Nat :=
  match checked_mul total bp with
  | none => .error .ArithmeticOverflow
  | some m =>
    match checked_div m 10000 with
    | none => .error .ArithmeticOverflow
    | some d => .ok d

/-- The settlement-splitting arithmetic shared verbatim by
`buy_ticket.rs` (handler lines 86-113), `lib.rs` (`buy_ticket` lines 42-69)
and `temp_auction_fix.rs` (`end_auction` lines 72-96): three floor-divided
shares, then the seller amount by three chained checked subtractions. -/
def splitSettlement (total : Nat) (c : RoyaltyConfig) :
    Except MarketplaceError Settlement :=
  match computeRoyalty total c.artist_percentage with
  | .error e => .error e
  | .ok artist_royalty =>
    match computeRoyalty total c.venue_percentage with
    | .error e => .error e
    | .ok venue_royalty =>
      match computeRoyalty total c.platform_percentage with
      | .error e => .error e
      | .ok platform_fee =>
        match checked_sub total artist_royalty with
        | none => .error .ArithmeticOverflow
        | some s1 =>
          match checked_sub s1 venue_royalty with
          | none => .error .ArithmeticOverflow
          | some s2 =>
            match checked_sub s2 platform_fee with
            | none => .error .ArithmeticOverflow
            | some seller_amount =>
              .ok ⟨artist_royalty, venue_royalty, platform_fee, seller_amount⟩

/-- `configure_royalty` from `src/lib.rs` lines 261-290.  The guard adds the
three `u16` arguments with Rust `+` (release profile: wrapping, modelled as
`% 2 ^ 16`) and rejects with `ArithmeticOverflow` when the wrapped sum
exceeds 10000.  On success the config record is created. -/
def configure_royalty (event_mint artist_wallet venue_wallet platform_wallet : Pubkey)
    (artist_percentage venue_percentage platform_percentage price_cap_multiplier : Nat)
    (bump : Nat) : Except MarketplaceError RoyaltyConfig :=
  let total_percentage :=
    (artist_percentage + venue_percentage + platform_percentage) % U16_MOD
  if total_percentage ≤ 10000 then
    .ok { event_mint := event_mint
          artist_wallet := artist_wallet
          venue_wallet := venue_wallet
          platform_wallet := platform_wallet
          artist_percentage := artist_percentage
          venue_percentage := venue_percentage
          platform_percentage := platform_percentage
          price_cap_multiplier := price_cap_multiplier
          bump := bump }
  else
    .error .ArithmeticOverflow

/-- The payment sequence common to `buy_ticket.rs` (lines 115-154),
`lib.rs` `buy_ticket` (lines 71-110) and `temp_auction_fix.rs` `end_auction`
(lines 98-115): pay the seller share unconditionally, then the artist and
venue royalties, each skipped when zero, all funded by `payer`. -/
def royaltyPayouts (payer sellerDest : Pubkey) (c : RoyaltyConfig)
    (s : Settlement) : List Transfer :=
  [⟨payer, sellerDest, s.seller_share⟩]
  ++ (if s.artist_share > 0 then [⟨payer, c.artist_wallet, s.artist_share⟩] else [])
  ++ (if s.venue_share > 0 then [⟨payer, c.venue_wallet, s.venue_share⟩] else [])

/-- `create_listing` handler from `src/instructions/create_listing.rs`
lines 56-107: hard-coded `original_price = 5_000_000_000` (noted in the
source as a metadata-lookup stub), price cap via checked mul/div against the
config multiplier, `PriceExceedsCap` when `price > price_cap`, then the
expiry check, the escrow token transfer (seller → escrow, one unit), and the
initialised `Listing` in `Active` status. -/
def create_listing (escrow_key ticket_mint seller : Pubkey)
    (c : RoyaltyConfig) (price : Nat) (expires_at : Option Int)
    (allow_offers : Bool) (now : Int) (bump : Nat) :
    Except MarketplaceError (Listing × List TokenMove) :=
  let original_price : Nat := 5000000000
  match checked_mul original_price c.price_cap_multiplier with
  | none => .error .ArithmeticOverflow
  | some m =>
    match checked_div m 10000 with
    | none => .error .ArithmeticOverflow
    | some price_cap =>
      if price ≤ price_cap then
        if _hExp : ∀ expires ∈ expires_at, expires > now then
          .ok ({ ticket_mint := ticket_mint
                 seller := seller
                 price := price
                 expires_at := expires_at
                 allow_offers := allow_offers
                 created_at := now
                 status := .Active
                 original_price := original_price
                 price_cap := price_cap
                 bump := bump },
               [⟨seller, escrow_key, 1⟩])
        else
          .error .ListingExpired
      else
        .error .PriceExceedsCap

/-- `buy_ticket` as the full instruction of `src/instructions/buy_ticket.rs`:
the Anchor account constraint `listing.status == Active @ ListingNotActive`
(struct `BuyTicket`, lines 9-15) runs before the handler; the handler
(lines 76-198) checks expiry, splits the price, pays seller / artist / venue
/ platform (zero royalty shares skipped) from the buyer, moves the one
escrowed ticket unit to the buyer, and marks the listing `Sold`. -/
def buy_ticket (escrow_key buyer : Pubkey) (l : Listing) (c : RoyaltyConfig)
    (now : Int) : Except MarketplaceError (Listing × List Transfer × List TokenMove) :=
  if l.status = .Active then
    if _hExp : ∀ expires ∈ l.expires_at, expires > now then
      match splitSettlement l.price c with
      | .error e => .error e
      | .ok s =>
        let transfers :=
          royaltyPayouts buyer l.seller c s
          ++ (if s.platform_share > 0 then [⟨buyer, c.platform_wallet, s.platform_share⟩] else [])
        .ok ({ l with status := .Sold }, transfers, [⟨escrow_key, buyer, 1⟩])
    else
      .error .ListingExpired
  else
    .error .ListingNotActive

/-- `buy_ticket` from `src/lib.rs` lines 35-121 (the in-program stub):
checks `Active`, splits the price the same way, but pays only seller, artist
and venue — the `BuyTicket` context of `lib.rs` (lines 191-224) has no
platform wallet and no escrow token account, so no platform transfer and no
token movement occur; the listing is marked `Sold`. -/
def buy_ticket_lib (buyer : Pubkey) (l : Listing) (c : RoyaltyConfig) :
    Except MarketplaceError (Listing × List Transfer) :=
  if l.status = .Active then
    match splitSettlement l.price c with
    | .error e => .error e
    | .ok s =>
      .ok ({ l with status := .Sold }, royaltyPayouts buyer l.seller c s)
  else
    .error .ListingNotActive

/-- `create_auction` from `src/lib.rs` lines 124-153: initialises the auction
record in `Active` status with `current_bid = starting_bid` and no bidder.
No escrow of the ticket unit and no fund movement occurs. -/
def create_auction (ticket_mint seller : Pubkey) (starting_bid duration_hours : Nat)
    (auction_type : AuctionType) (now : Int) (bump : Nat) :
    Auction × List Transfer × List TokenMove :=
  ({ ticket_mint := ticket_mint
     seller := seller
     starting_bid := starting_bid
     current_bid := starting_bid
     highest_bidder := none
     end_time := now + (duration_hours : Int) * 3600
     auction_type := auction_type
     status := .Active
     bump := bump },
   [], [])

/-- `place_bid` from `temp_auction_fix.rs` lines 1-52: validates
active / not-ended / English / `bid_amount > current_bid` (the last rejection
uses `InsufficientFunds`); if a previous highest bidder exists, differs from
the bidder and the previous bid is positive, moves the previous bid from the
auction account back to the previous bidder; then transfers the new bid from
the bidder into the auction account; finally records the new highest bid.
The returned transfer list is in execution order: refund first, deposit
second. -/
def place_bid (auction_key bidder : Pubkey) (a : Auction) (bid_amount : Nat)
    (now : Int) : Except MarketplaceError (Auction × List Transfer) :=
  if a.status = .Active then
    if now < a.end_time then
      if a.auction_type = .English then
        if bid_amount > a.current_bid then
          let refunds :=
            match a.highest_bidder with
            | some prev_bidder =>
              if prev_bidder ≠ bidder ∧ a.current_bid > 0 then
                [⟨auction_key, prev_bidder, a.current_bid⟩]
              else []
            | none => []
          let deposit : Transfer := ⟨bidder, auction_key, bid_amount⟩
          .ok ({ a with current_bid := bid_amount, highest_bidder := some bidder },
               refunds ++ [deposit])
        else
          .error .InsufficientFunds
      else
        .error .ListingNotActive
    else
      .error .ListingNotActive
  else
    .error .ListingNotActive

/-- `place_bid` from `src/lib.rs` lines 156-169 (the in-program stub):
same active / not-ended / higher-bid checks (`InsufficientFunds` on a low
bid), then records the new bid; no refund and no escrow movement at all. -/
def place_bid_lib (bidder : Pubkey) (a : Auction) (bid_amount : Nat)
    (now : Int) : Except MarketplaceError (Auction × List Transfer) :=
  if a.status = .Active then
    if now < a.end_time then
      if bid_amount > a.current_bid then
        .ok ({ a with current_bid := bid_amount, highest_bidder := some bidder }, [])
      else
        .error .InsufficientFunds
    else
      .error .ListingNotActive
  else
    .error .ListingNotActive

/-- `end_auction` from `temp_auction_fix.rs` lines 55-133: validates
active / ended; with a winner, splits `current_bid` and pays seller, artist
and venue out of the auction account (the computed `platform_fee` is never
transferred; zero shares skipped), sets status `Ended`; with no winner just
sets status `Cancelled`.  No token movement occurs in either branch. -/
def end_auction (auction_key : Pubkey) (a : Auction) (c : RoyaltyConfig)
    (now : Int) : Except MarketplaceError (Auction × List Transfer × List TokenMove) :=
  if a.status = .Active then
    if a.end_time ≤ now then
      match a.highest_bidder with
      | some _ =>
        match splitSettlement a.current_bid c with
        | .error e => .error e
        | .ok s =>
          .ok ({ a with status := .Ended }, royaltyPayouts auction_key a.seller c s, [])
      | none =>
        .ok ({ a with status := .Cancelled }, [], [])
    else
      .error .ListingNotActive
  else
    .error .ListingNotActive

/-- Total lamports moved by a transfer list. -/
def sumAmounts (ts : List Transfer) : Nat :=
  (ts.map Transfer.amount).sum

/-- Effect of one lamport transfer on an account-balance map. -/
def applyTransfer (bal : Pubkey → Int) (t : Transfer) : Pubkey → Int :=
  fun k =>
    bal k + (if k = t.dest then (t.amount : Int) else 0)
          - (if k = t.source then (t.amount : Int) else 0)

/-- Effect of a transfer list on a balance map, applied in execution order. -/
def applyTransfers (bal : Pubkey → Int) (ts : List Transfer) : Pubkey → Int :=
  ts.foldl applyTransfer bal

/-- A listing together with the lamport balances of every account. -/
structure ListingState where
  listing : Listing
  balances : Pubkey → Int

/-- One `buy_ticket` transaction as executed by the ledger: the instruction
effects commit only on success; Solana transactions are all-or-nothing, so a
failed instruction leaves every account exactly as it was. -/
def buyTicketStep (escrow_key buyer : Pubkey) (s : ListingState)
    (c : RoyaltyConfig) (now : Int) : ListingState × Option MarketplaceError :=
  match buy_ticket escrow_key buyer s.listing c now with
  | .ok (l2, ts, _moves) => (⟨l2, applyTransfers s.balances ts⟩, none)
  | .error e => (s, some e)

/-- An auction together with the lamport balances of every account. -/
structure AuctionState where
  auction : Auction
  balances : Pubkey → Int

/-- One `place_bid` transaction as executed by the ledger: effects commit
only on success, a failure rolls back everything. -/
def placeBidStep (auction_key bidder : Pubkey) (s : AuctionState)
    (bid_amount : Nat) (now : Int) : AuctionState × Option MarketplaceError :=
  match place_bid auction_key bidder s.auction bid_amount now with
  | .ok (a2, ts) => (⟨a2, applyTransfers s.balances ts⟩, none)
  | .error e => (s, some e)

/-- The royalty configuration of the spec scenarios: artist 10%, venue 5%,
platform 1%, price cap 200%, with event mint 1 and wallets 2 / 3 / 4. -/
def demoConfig : RoyaltyConfig :=
  ⟨1, 2, 3, 4, 1000, 500, 100, 20000, 0⟩

/-- A listing (mint 7, seller 8, price 1000) already marked `Sold`. -/
def soldListing : Listing :=
  ⟨7, 8, 1000, none, false, 0, .Sold, 5000000000, 10000000000, 0⟩

/-- Ledger state holding `soldListing` with all balances zero. -/
def soldState : ListingState :=
  ⟨soldListing, fun _ => 0⟩

/-- The same listing while still `Active`. -/
def activeListing : Listing :=
  ⟨7, 8, 1000, none, false, 0, .Active, 5000000000, 10000000000, 0⟩

/-- Scenario C mid-auction: starting bid 100, bidder 10 leading at 150,
ending at time 1000. -/
def outbidAuction : Auction :=
  ⟨7, 8, 100, 150, some 10, 1000, .English, .Active, 0⟩

/-- Ledger state holding `outbidAuction` with all balances zero. -/
def outbidState : AuctionState :=
  ⟨outbidAuction, fun _ => 0⟩

/-- Scenario D: an auction that will reach time 500 with no bids placed. -/
def noBidAuction : Auction :=
  ⟨7, 8, 100, 100, none, 500, .English, .Active, 0⟩

/-- An auction past its end time with bidder 10 having won at 1000. -/
def wonAuction : Auction :=
  ⟨7, 8, 100, 1000, some 10, 500, .English, .Active, 0⟩

/-- Unfolding lemma: a successful checked subtraction. -/
theorem checked_sub_some {a b r : Nat} (h : checked_sub a b = some r) :
    b ≤ a ∧ r = a - b := by
  unfold checked_sub at h
  split at h
  · exact ⟨by assumption, (Option.some.inj h).symm⟩
  · cases h

/-- When the product stays in the `u64` range the royalty computation
succeeds with the floor division. -/
theorem computeRoyalty_of_lt {total bp : Nat} (h : total * bp < U64_MOD) :
    computeRoyalty total bp = .ok (total * bp / 10000) := by
  unfold computeRoyalty checked_mul checked_div
  simp [h]

/-- A successful royalty computation is the floor division of the product. -/
theorem computeRoyalty_ok_spec {total bp r : Nat}
    (h : computeRoyalty total bp = .ok r) : r = total * bp / 10000 := by
  by_cases hlt : total * bp < U64_MOD
  · rw [computeRoyalty_of_lt hlt] at h
    exact (Except.ok.inj h).symm
  · unfold computeRoyalty checked_mul at h
    rw [if_neg hlt] at h
    cases h

/-- Three basis-point floor shares of a total never exceed the total when
the basis points sum to at most 10000. -/
theorem shares_le (total a v p : Nat) (h : a + v + p ≤ 10000) :
    total * a / 10000 + total * v / 10000 + total * p / 10000 ≤ total := by
  have ha := Nat.div_mul_le_self (total * a) 10000
  have hv := Nat.div_mul_le_self (total * v) 10000
  have hp := Nat.div_mul_le_self (total * p) 10000
  have hsum : (total * a / 10000 + total * v / 10000 + total * p / 10000) * 10000
      ≤ total * 10000 := by
    calc (total * a / 10000 + total * v / 10000 + total * p / 10000) * 10000
        = total * a / 10000 * 10000 + total * v / 10000 * 10000
          + total * p / 10000 * 10000 := by ring
      _ ≤ total * a + total * v + total * p := by omega
      _ = total * (a + v + p) := by ring
      _ ≤ total * 10000 := Nat.mul_le_mul_left total h
  exact Nat.le_of_mul_le_mul_right hsum (by norm_num)

/-- Characterisation of a successful settlement split: the three royalty
shares are the floor divisions and the four shares sum exactly to the
total. -/
theorem splitSettlement_ok_spec {total : Nat} {c : RoyaltyConfig} {s : Settlement}
    (h : splitSettlement total c = .ok s) :
    s.artist_share = total * c.artist_percentage / 10000 ∧
    s.venue_share = total * c.venue_percentage / 10000 ∧
    s.platform_share = total * c.platform_percentage / 10000 ∧
    s.artist_share + s.venue_share + s.platform_share + s.seller_share = total := by
  unfold splitSettlement at h
  split at h
  · cases h
  · rename_i ra hA
    split at h
    · cases h
    · rename_i rv hV
      split at h
      · cases h
      · rename_i rp hP
        split at h
        · cases h
        · rename_i s1 h1
          split at h
          · cases h
          · rename_i s2 h2
            split at h
            · cases h
            · rename_i s3 h3
              have hra := computeRoyalty_ok_spec hA
              have hrv := computeRoyalty_ok_spec hV
              have hrp := computeRoyalty_ok_spec hP
              obtain ⟨hb1, he1⟩ := checked_sub_some h1
              obtain ⟨hb2, he2⟩ := checked_sub_some h2
              obtain ⟨hb3, he3⟩ := checked_sub_some h3
              cases h
              refine ⟨hra, hrv, hrp, ?_⟩
              show ra + rv + rp + s3 = total
              omega

/-- Under a validated basis-point sum, the settlement split succeeds as soon
as the three checked multiplications stay in range: the chained checked
subtractions can never underflow. -/
theorem splitSettlement_of_valid (total : Nat) (c : RoyaltyConfig)
    (hbp : c.artist_percentage + c.venue_percentage + c.platform_percentage ≤ 10000)
    (ha : total * c.artist_percentage < U64_MOD)
    (hv : total * c.venue_percentage < U64_MOD)
    (hp : total * c.platform_percentage < U64_MOD) :
    splitSettlement total c =
      .ok ⟨total * c.artist_percentage / 10000,
           total * c.venue_percentage / 10000,
           total * c.platform_percentage / 10000,
           total - total * c.artist_percentage / 10000
             - total * c.venue_percentage / 10000
             - total * c.platform_percentage / 10000⟩ := by
  have hle := shares_le total c.artist_percentage c.venue_percentage
    c.platform_percentage hbp
  have h1 : total * c.artist_percentage / 10000 ≤ total := by omega
  have h2 : total * c.venue_percentage / 10000
      ≤ total - total * c.artist_percentage / 10000 := by omega
  have h3 : total * c.platform_percentage / 10000
      ≤ total - total * c.artist_percentage / 10000
        - total * c.venue_percentage / 10000 := by omega
  unfold splitSettlement
  rw [computeRoyalty_of_lt ha, computeRoyalty_of_lt hv, computeRoyalty_of_lt hp]
  dsimp only
  unfold checked_sub
  rw [if_pos h1]
  dsimp only
  rw [if_pos h2]
  dsimp only
  rw [if_pos h3]

/-- The lamports moved by a payout list equal seller + artist + venue shares
(skipping a zero share skips a zero amount). -/
theorem royaltyPayouts_sum (payer sellerDest : Pubkey) (c : RoyaltyConfig)
    (s : Settlement) :
    sumAmounts (royaltyPayouts payer sellerDest c s) =
      s.seller_share + s.artist_share + s.venue_share := by
  unfold royaltyPayouts sumAmounts
  by_cases h1 : s.artist_share > 0 <;> by_cases h2 : s.venue_share > 0 <;>
    simp [h1, h2] <;> omega

/-- Every payout transfer is funded by the payer and lands on the seller,
artist or venue destination. -/
theorem royaltyPayouts_mem (payer sellerDest : Pubkey) (c : RoyaltyConfig)
    (s : Settlement) :
    ∀ t ∈ royaltyPayouts payer sellerDest c s,
      t.source = payer ∧
      (t.dest = sellerDest ∨ t.dest = c.artist_wallet ∨ t.dest = c.venue_wallet) := by
  intro t ht
  unfold royaltyPayouts at ht
  rcases List.mem_append.mp ht with h | h
  · rcases List.mem_append.mp h with h | h
    · rw [List.mem_singleton.mp h]
      exact ⟨rfl, Or.inl rfl⟩
    · have he : t = ⟨payer, c.artist_wallet, s.artist_share⟩ := by
        by_cases ha : s.artist_share > 0
        · rw [if_pos ha] at h; exact List.mem_singleton.mp h
        · rw [if_neg ha] at h; cases h
      rw [he]
      exact ⟨rfl, Or.inr (Or.inl rfl)⟩
  · have he : t = ⟨payer, c.venue_wallet, s.venue_share⟩ := by
      by_cases hv : s.venue_share > 0
      · rw [if_pos hv] at h; exact List.mem_singleton.mp h
      · rw [if_neg hv] at h; cases h
    rw [he]
    exact ⟨rfl, Or.inr (Or.inr rfl)⟩

/-- An account that is neither source nor destination of any transfer in a
list keeps its balance. -/
theorem applyTransfers_untouched (ts : List Transfer) (k : Pubkey)
    (h : ∀ t ∈ ts, t.source ≠ k ∧ t.dest ≠ k) (bal : Pubkey → Int) :
    applyTransfers bal ts k = bal k := by
  induction ts generalizing bal with
  | nil => rfl
  | cons t rest ih =>
    obtain ⟨hs, hd⟩ := h t (by simp)
    have hrest : ∀ x ∈ rest, x.source ≠ k ∧ x.dest ≠ k :=
      fun x hx => h x (by simp [hx])
    show applyTransfers (applyTransfer bal t) rest k = bal k
    rw [ih hrest]
    unfold applyTransfer
    rw [if_neg (fun hk => hd hk.symm), if_neg (fun hk => hs hk.symm)]
    omega

/-- C1: for every total price and royalty config for which the settlement
computation succeeds, the completed settlement conserves value:
`artist_share + venue_share + platform_share + seller_share = total`, with
each royalty share the floor division `total * bp / 10000` and the seller
share the remainder. -/
theorem settlement_conservation (total : Nat) (c : RoyaltyConfig) (s : Settlement)
    (h : splitSettlement total c = .ok s) :
    s.artist_share + s.venue_share + s.platform_share + s.seller_share = total ∧
    s.artist_share = total * c.artist_percentage / 10000 ∧
    s.venue_share = total * c.venue_percentage / 10000 ∧
    s.platform_share = total * c.platform_percentage / 10000 := by
  obtain ⟨h1, h2, h3, h4⟩ := splitSettlement_ok_spec h
  exact ⟨h4, h1, h2, h3⟩

/-- C1 witness: Scenario B — `total = 1000` with bps 1000 / 500 / 100 gives
shares 100 / 50 / 10 / 840, summing to 1000. -/
theorem settlement_conservation_witness :
    splitSettlement 1000 demoConfig = .ok ⟨100, 50, 10, 840⟩ ∧
    100 + 50 + 10 + 840 = 1000 :=
  ⟨rfl, (settlement_conservation 1000 demoConfig ⟨100, 50, 10, 840⟩ rfl).1⟩

/-- C8: whenever the basis points of a config sum to at most 10000 and the
three checked multiplications stay inside `u64`, the settlement split
succeeds outright — the `ArithmeticOverflow` branches guarding the chained
checked subtractions that compute the seller share are unreachable, and the
seller share is the non-negative remainder. -/
theorem seller_share_no_underflow (total : Nat) (c : RoyaltyConfig)
    (hbp : c.artist_percentage + c.venue_percentage + c.platform_percentage ≤ 10000)
    (ha : total * c.artist_percentage < U64_MOD)
    (hv : total * c.venue_percentage < U64_MOD)
    (hp : total * c.platform_percentage < U64_MOD) :
    splitSettlement total c =
      .ok ⟨total * c.artist_percentage / 10000,
           total * c.venue_percentage / 10000,
           total * c.platform_percentage / 10000,
           total - total * c.artist_percentage / 10000
             - total * c.venue_percentage / 10000
             - total * c.platform_percentage / 10000⟩ :=
  splitSettlement_of_valid total c hbp ha hv hp

/-- C8 witness: a concrete valid config and total on which the split
succeeds with the expected remainder for the seller. -/
theorem seller_share_no_underflow_witness :
    demoConfig.artist_percentage + demoConfig.venue_percentage
      + demoConfig.platform_percentage ≤ 10000 ∧
    splitSettlement 123456789 demoConfig =
      .ok ⟨12345678, 6172839, 1234567, 103703705⟩ :=
  ⟨by decide,
   seller_share_no_underflow 123456789 demoConfig (by decide) (by decide)
     (by decide) (by decide)⟩

/-- C5 failing input: `configure_royalty` validates the basis-point sum with
an unchecked `u16` addition, so the triple `(60000, 6000, 0)` — mathematical
sum 66000, far above 100% — wraps to 464, passes the guard, and the config
record is created; moreover, when the guard does fire (second input,
`6000 + 5000`), the error it signals is `ArithmeticOverflow`: the program
has no `InvalidSplit` error at all. -/
theorem configure_royalty_accepts_invalid_split :
    configure_royalty 1 2 3 4 60000 6000 0 20000 0 =
      .ok ⟨1, 2, 3, 4, 60000, 6000, 0, 20000, 0⟩ ∧
    60000 + 6000 + 0 > 10000 ∧
    configure_royalty 1 2 3 4 6000 5000 0 20000 0 = .error .ArithmeticOverflow :=
  ⟨rfl, by norm_num, rfl⟩

/-- C10: the guard of `configure_royalty` is built on an unchecked `u16`
addition: the arguments `(65535, 1, 0)` are each a valid `u16`, their
mathematical sum 65536 exceeds both 10000 and the `u16` range, the wrapped
sum is 0, and the over-100% split is accepted instead of rejected. -/
theorem configure_royalty_guard_wraps :
    65535 + 1 + 0 > 10000 ∧
    65535 + 1 + 0 > 65535 ∧
    configure_royalty 5 6 7 8 65535 1 0 20000 0 =
      .ok ⟨5, 6, 7, 8, 65535, 1, 0, 20000, 0⟩ :=
  ⟨by norm_num, by norm_num, rfl⟩

/-- C4: buying a listing whose status is not `Active` (Sold, Cancelled or
Expired) fails with `ListingNotActive`, and the failed transaction leaves
the whole ledger state — the listing and every account balance — exactly as
it was: the Anchor constraint fires before any transfer, and the host rolls
back a failed instruction wholesale. -/
theorem buy_ticket_inactive_rejected (escrow_key buyer : Pubkey)
    (s : ListingState) (c : RoyaltyConfig) (now : Int)
    (h : s.listing.status ≠ .Active) :
    buy_ticket escrow_key buyer s.listing c now = .error .ListingNotActive ∧
    buyTicketStep escrow_key buyer s c now = (s, some .ListingNotActive) := by
  have h1 : buy_ticket escrow_key buyer s.listing c now = .error .ListingNotActive := by
    unfold buy_ticket
    rw [if_neg h]
  refine ⟨h1, ?_⟩
  unfold buyTicketStep
  rw [h1]

/-- C4 witness: buying a `Sold` listing fails with `ListingNotActive` and
the ledger state is returned untouched. -/
theorem buy_ticket_inactive_rejected_witness :
    soldState.listing.status ≠ ListingStatus.Active ∧
    buyTicketStep 5 11 soldState demoConfig 0 = (soldState, some .ListingNotActive) :=
  ⟨by decide,
   (buy_ticket_inactive_rejected 5 11 soldState demoConfig 0 (by decide)).2⟩

/-- C6 counterexample: on an Active English auction with current bid 150, a
bid of 140 is rejected — but the error produced is `InsufficientFunds`.
The program's error enum (`src/errors/mod.rs`) has no `BidTooLow` variant
at all, so the claimed failure `BidTooLow` is not what the code signals. -/
theorem place_bid_low_bid_error_name :
    place_bid 99 11 outbidAuction 140 0 = .error .InsufficientFunds := rfl

/-- C6 (amended): on an Active English auction that has not ended, a bid of
`amount ≤ current_bid` fails with `InsufficientFunds` (the code reuses that
variant for low bids) and the failed transaction leaves the auction record
and every balance unchanged. -/
theorem place_bid_low_bid_rejected (auction_key bidder : Pubkey)
    (s : AuctionState) (amount : Nat) (now : Int)
    (hact : s.auction.status = .Active)
    (htime : now < s.auction.end_time)
    (htype : s.auction.auction_type = .English)
    (hlow : amount ≤ s.auction.current_bid) :
    place_bid auction_key bidder s.auction amount now = .error .InsufficientFunds ∧
    placeBidStep auction_key bidder s amount now = (s, some .InsufficientFunds) := by
  have h1 : place_bid auction_key bidder s.auction amount now
      = .error .InsufficientFunds := by
    unfold place_bid
    rw [if_pos hact, if_pos htime, if_pos htype,
      if_neg (by omega : ¬ amount > s.auction.current_bid)]
  refine ⟨h1, ?_⟩
  unfold placeBidStep
  rw [h1]

/-- C6 witness: Scenario C — with bidder 10 leading at 150, a bid of 140 by
bidder 11 is rejected and the state is returned untouched. -/
theorem place_bid_low_bid_rejected_witness :
    140 ≤ outbidState.auction.current_bid ∧
    placeBidStep 99 11 outbidState 140 0 = (outbidState, some .InsufficientFunds) :=
  ⟨by decide,
   (place_bid_low_bid_rejected 99 11 outbidState 140 0 rfl (by decide) rfl
     (by decide)).2⟩

/-- C7 counterexample: ending an auction that reached its end time with no
bids succeeds, sets the status to `Cancelled` and moves no funds — but it
performs no token movement either: there is no release of an escrowed unit
to the seller, because `create_auction` (second conjunct) never took the
unit into escrow in the first place. -/
theorem end_auction_no_release :
    end_auction 99 noBidAuction demoConfig 700 =
      .ok ({ noBidAuction with status := .Cancelled }, [], []) ∧
    create_auction 7 8 100 24 .English 0 0 =
      (⟨7, 8, 100, 100, none, 86400, .English, .Active, 0⟩, [], []) :=
  ⟨rfl, rfl⟩

/-- C7 (amended): ending an Active auction past its end time with no bids
sets `status = Cancelled` and produces no fund transfer and no unit
movement; since `create_auction` never escrows the unit, the unit simply
stays with the seller throughout. -/
theorem end_auction_no_bids (auction_key : Pubkey) (a : Auction)
    (c : RoyaltyConfig) (now : Int)
    (hact : a.status = .Active) (hend : a.end_time ≤ now)
    (hnb : a.highest_bidder = none) :
    end_auction auction_key a c now =
      .ok ({ a with status := .Cancelled }, [], []) := by
  unfold end_auction
  rw [if_pos hact, if_pos hend, hnb]

/-- C7 witness: Scenario D on the concrete no-bid auction. -/
theorem end_auction_no_bids_witness :
    noBidAuction.highest_bidder = none ∧
    end_auction 99 noBidAuction demoConfig 600 =
      .ok ({ noBidAuction with status := .Cancelled }, [], []) :=
  ⟨rfl, end_auction_no_bids 99 noBidAuction demoConfig 600 rfl (by decide) rfl⟩

/-- C2: a successful English-auction `place_bid` that outbids a different
previous highest bidder produces exactly two lamport movements, in this
order: first the refund of exactly the previous `current_bid` from the
auction escrow account to the previous bidder, then the deposit of the new
bid from the new bidder into the escrow — refund-then-deposit, never the
reverse.  (`0 < current_bid` holds in every reachable state with a recorded
highest bidder, since each accepted bid strictly exceeds the previous
`current_bid ≥ 0`.) -/
theorem place_bid_refund_before_deposit (auction_key bidder prev : Pubkey)
    (a : Auction) (amount : Nat) (now : Int) (a2 : Auction) (ts : List Transfer)
    (hok : place_bid auction_key bidder a amount now = .ok (a2, ts))
    (hprev : a.highest_bidder = some prev) (hne : prev ≠ bidder)
    (hpos : 0 < a.current_bid) :
    ts = [⟨auction_key, prev, a.current_bid⟩, ⟨bidder, auction_key, amount⟩] ∧
    a2.current_bid = amount ∧ a2.highest_bidder = some bidder := by
  unfold place_bid at hok
  split at hok
  · split at hok
    · split at hok
      · split at hok
        · rw [hprev] at hok
          dsimp only at hok
          rw [if_pos (show prev ≠ bidder ∧ a.current_bid > 0 from ⟨hne, hpos⟩)] at hok
          injection hok with hok2
          injection hok2 with ha hts
          subst ha
          refine ⟨?_, rfl, rfl⟩
          rw [← hts]
          rfl
        · cases hok
      · cases hok
    · cases hok
  · cases hok

/-- C2 witness: Scenario C — bidder 10 leads at 150; bidder 11 bids 200;
the transfer list is the 150-lamport refund to bidder 10 followed by the
200-lamport deposit, and the refund amount is exactly the previous
`current_bid`. -/
theorem place_bid_refund_before_deposit_witness :
    outbidAuction.highest_bidder = some 10 ∧
    place_bid 99 11 outbidAuction 200 0 =
      .ok ({ outbidAuction with current_bid := 200, highest_bidder := some 11 },
           [⟨99, 10, 150⟩, ⟨11, 99, 200⟩]) ∧
    ([⟨99, 10, 150⟩, ⟨11, 99, 200⟩] : List Transfer) =
      [⟨99, 10, outbidAuction.current_bid⟩, ⟨11, 99, 200⟩] := by
  refine ⟨rfl, rfl, ?_⟩
  exact (place_bid_refund_before_deposit 99 11 10 outbidAuction 200 0
    { outbidAuction with current_bid := 200, highest_bidder := some 11 }
    [⟨99, 10, 150⟩, ⟨11, 99, 200⟩] rfl rfl (by decide) (by decide)).1

/-- C3: for every `create_listing` call (with a `u16` cap multiplier), the
stored `price_cap` is exactly `original_price * cap_multiplier_bp / 10000`
by integer division (with `original_price` the hard-coded 5_000_000_000 the
handler uses in place of a metadata lookup); any call with
`price > price_cap` fails with `PriceExceedsCap`, and any call with
`price ≤ price_cap` and a valid expiry succeeds with the capped listing
stored `Active`. -/
theorem create_listing_price_cap (escrow_key ticket_mint seller : Pubkey)
    (c : RoyaltyConfig) (price : Nat) (expires_at : Option Int)
    (allow_offers : Bool) (now : Int) (bump : Nat)
    (hmult : c.price_cap_multiplier < U16_MOD) :
    (∀ l moves,
        create_listing escrow_key ticket_mint seller c price expires_at
          allow_offers now bump = .ok (l, moves) →
        l.price_cap = l.original_price * c.price_cap_multiplier / 10000 ∧
        l.original_price = 5000000000 ∧ l.price = price ∧ price ≤ l.price_cap) ∧
    (price > 5000000000 * c.price_cap_multiplier / 10000 →
        create_listing escrow_key ticket_mint seller c price expires_at
          allow_offers now bump = .error .PriceExceedsCap) ∧
    (price ≤ 5000000000 * c.price_cap_multiplier / 10000 →
        (∀ e ∈ expires_at, e > now) →
        create_listing escrow_key ticket_mint seller c price expires_at
          allow_offers now bump =
          .ok (⟨ticket_mint, seller, price, expires_at, allow_offers, now,
                .Active, 5000000000,
                5000000000 * c.price_cap_multiplier / 10000, bump⟩,
               [⟨seller, escrow_key, 1⟩])) := by
  have hmono : c.price_cap_multiplier ≤ 65535 := by
    unfold U16_MOD at hmult; omega
  have hbound : (5000000000 : Nat) * 65535 < U64_MOD := by
    unfold U64_MOD; norm_num
  have hmul : (5000000000 : Nat) * c.price_cap_multiplier < U64_MOD := by
    have := Nat.mul_le_mul_left 5000000000 hmono
    omega
  have hmulEq : checked_mul 5000000000 c.price_cap_multiplier
      = some (5000000000 * c.price_cap_multiplier) := by
    unfold checked_mul; rw [if_pos hmul]
  have hdivEq : checked_div (5000000000 * c.price_cap_multiplier) 10000
      = some (5000000000 * c.price_cap_multiplier / 10000) := by
    unfold checked_div; norm_num
  refine ⟨?_, ?_, ?_⟩
  · intro l moves hok
    unfold create_listing at hok
    dsimp only at hok
    rw [hmulEq] at hok
    dsimp only at hok
    rw [hdivEq] at hok
    dsimp only at hok
    split at hok
    · split at hok
      · injection hok with hok2
        injection hok2 with hl hmoves
        subst hl
        exact ⟨rfl, rfl, rfl, by assumption⟩
      · cases hok
    · cases hok
  · intro hgt
    unfold create_listing
    dsimp only
    rw [hmulEq]
    dsimp only
    rw [hdivEq]
    dsimp only
    rw [if_neg (by omega :
      ¬ price ≤ 5000000000 * c.price_cap_multiplier / 10000)]
  · intro hle hexp
    unfold create_listing
    dsimp only
    rw [hmulEq]
    dsimp only
    rw [hdivEq]
    dsimp only
    rw [if_pos hle, dif_pos hexp]

/-- C3 witness: Scenario A — with cap multiplier 20000 the cap is
10_000_000_000; listing at 10_000_000_001 fails `PriceExceedsCap`, listing
at 10_000_000_000 succeeds and stores the cap. -/
theorem create_listing_price_cap_witness :
    demoConfig.price_cap_multiplier < U16_MOD ∧
    create_listing 5 7 8 demoConfig 10000000001 none false 0 0 =
      .error .PriceExceedsCap ∧
    create_listing 5 7 8 demoConfig 10000000000 none false 0 0 =
      .ok (⟨7, 8, 10000000000, none, false, 0, .Active, 5000000000,
            10000000000, 0⟩,
           [⟨8, 5, 1⟩]) := by
  refine ⟨by decide, ?_, ?_⟩
  · exact (create_listing_price_cap 5 7 8 demoConfig 10000000001 none false 0 0
      (by decide)).2.1 (by decide)
  · exact (create_listing_price_cap 5 7 8 demoConfig 10000000000 none false 0 0
      (by decide)).2.2 (by decide) (by simp)

/-- C9: in the `lib.rs` `buy_ticket` path and in the `end_auction` winner
path, the platform fee is computed and deducted from the seller share but no
transfer to the platform wallet exists: the platform wallet (when distinct
from the other parties) keeps its balance, and the lamports actually paid
out sum to `total - platform_share` rather than `total`. -/
theorem platform_share_never_transferred
    (buyer auction_key w : Pubkey) (l : Listing) (a : Auction)
    (c : RoyaltyConfig) (now : Int) (l2 : Listing) (ts : List Transfer)
    (a2 : Auction) (us : List Transfer) (tm : List TokenMove)
    (hbuy : buy_ticket_lib buyer l c = .ok (l2, ts))
    (hend : end_auction auction_key a c now = .ok (a2, us, tm))
    (hw : a.highest_bidder = some w)
    (hd1 : c.platform_wallet ≠ l.seller)
    (hd2 : c.platform_wallet ≠ c.artist_wallet)
    (hd3 : c.platform_wallet ≠ c.venue_wallet)
    (hd4 : c.platform_wallet ≠ buyer)
    (hd5 : c.platform_wallet ≠ a.seller)
    (hd6 : c.platform_wallet ≠ auction_key) :
    sumAmounts ts = l.price - l.price * c.platform_percentage / 10000 ∧
    (∀ bal, applyTransfers bal ts c.platform_wallet = bal c.platform_wallet) ∧
    sumAmounts us = a.current_bid - a.current_bid * c.platform_percentage / 10000 ∧
    (∀ bal, applyTransfers bal us c.platform_wallet = bal c.platform_wallet) := by
  have hbuyParts :
      sumAmounts ts = l.price - l.price * c.platform_percentage / 10000 ∧
      (∀ bal, applyTransfers bal ts c.platform_wallet = bal c.platform_wallet) := by
    unfold buy_ticket_lib at hbuy
    split at hbuy
    · split at hbuy
      · cases hbuy
      · rename_i s hs
        injection hbuy with hbuy2
        injection hbuy2 with hl hts
        obtain ⟨e1, e2, e3, e4⟩ := splitSettlement_ok_spec hs
        constructor
        · rw [← hts, royaltyPayouts_sum]
          omega
        · intro bal
          rw [← hts]
          refine applyTransfers_untouched _ _ ?_ bal
          intro t ht
          obtain ⟨hsrc, hdst⟩ := royaltyPayouts_mem _ _ _ _ t ht
          refine ⟨?_, ?_⟩
          · rw [hsrc]; exact fun hco => hd4 hco.symm
          · rcases hdst with hh | hh | hh <;> rw [hh]
            · exact fun hco => hd1 hco.symm
            · exact fun hco => hd2 hco.symm
            · exact fun hco => hd3 hco.symm
    · cases hbuy
  have hendParts :
      sumAmounts us = a.current_bid - a.current_bid * c.platform_percentage / 10000 ∧
      (∀ bal, applyTransfers bal us c.platform_wallet = bal c.platform_wallet) := by
    unfold end_auction at hend
    split at hend
    · split at hend
      · rw [hw] at hend
        dsimp only at hend
        split at hend
        · cases hend
        · rename_i s hs
          injection hend with hend2
          injection hend2 with ha hrest
          injection hrest with hus htm
          obtain ⟨e1, e2, e3, e4⟩ := splitSettlement_ok_spec hs
          constructor
          · rw [← hus, royaltyPayouts_sum]
            omega
          · intro bal
            rw [← hus]
            refine applyTransfers_untouched _ _ ?_ bal
            intro t ht
            obtain ⟨hsrc, hdst⟩ := royaltyPayouts_mem _ _ _ _ t ht
            refine ⟨?_, ?_⟩
            · rw [hsrc]; exact fun hco => hd6 hco.symm
            · rcases hdst with hh | hh | hh <;> rw [hh]
              · exact fun hco => hd5 hco.symm
              · exact fun hco => hd2 hco.symm
              · exact fun hco => hd3 hco.symm
      · cases hend
    · cases hend
  exact ⟨hbuyParts.1, hbuyParts.2, hendParts.1, hendParts.2⟩

/-- C9 witness: price and winning bid 1000 with platform bp 100 — each path
pays out 990 in total (840 + 100 + 50), and the platform wallet (account 4)
receives nothing. -/
theorem platform_share_never_transferred_witness :
    buy_ticket_lib 11 activeListing demoConfig =
      .ok ({ activeListing with status := .Sold },
           [⟨11, 8, 840⟩, ⟨11, 2, 100⟩, ⟨11, 3, 50⟩]) ∧
    end_auction 99 wonAuction demoConfig 600 =
      .ok ({ wonAuction with status := .Ended },
           [⟨99, 8, 840⟩, ⟨99, 2, 100⟩, ⟨99, 3, 50⟩], []) ∧
    sumAmounts [⟨11, 8, 840⟩, ⟨11, 2, 100⟩, ⟨11, 3, 50⟩] =
      1000 - 1000 * demoConfig.platform_percentage / 10000 ∧
    applyTransfers (fun _ => 0) [⟨99, 8, 840⟩, ⟨99, 2, 100⟩, ⟨99, 3, 50⟩] 4 = 0 := by
  have h := platform_share_never_transferred 11 99 10 activeListing wonAuction
    demoConfig 600 { activeListing with status := .Sold }
    [⟨11, 8, 840⟩, ⟨11, 2, 100⟩, ⟨11, 3, 50⟩]
    { wonAuction with status := .Ended }
    [⟨99, 8, 840⟩, ⟨99, 2, 100⟩, ⟨99, 3, 50⟩] []
    rfl rfl rfl (by decide) (by decide) (by decide) (by decide) (by decide)
    (by decide)
  exact ⟨rfl, rfl, h.1, h.2.2.2 (fun _ => 0)⟩
